import Mathlib

/-!
Verification model of the YouTube channel monitoring engine of this
repository: channel-reference resolution, freshness tracking, batch
orchestration (agents/youtube_channel_agent.py) and the persistent state
store with its in-memory state manager (agents/storage.py), embedded
shallowly as pure Lean functions.  External collaborators (the YouTube
data API and the storage backend) are modelled as oracle parameters;
everything the repository itself computes is translated directly from the
Python source.
-/

/-- A Python dict with string keys, modelled as an association list in
which the first binding for a key is the one visible (keys are unique in
an actual dict; an insertion of a fresh key appends at the end, an update
of an existing key keeps its position, matching dict semantics). -/
def assocFind {α : Type} : List (String × α) → String → Option α
  | [], _ => none
  | (k1, v) :: rest, k => if k1 = k then some v else assocFind rest k

/-- Item assignment on a Python dict: update in place if the key exists,
append otherwise. -/
def assocSet {α : Type} : List (String × α) → String → α → List (String × α)
  | [], k, v => [(k, v)]
  | (k1, v1) :: rest, k, v =>
      if k1 = k then (k, v) :: rest else (k1, v1) :: assocSet rest k v

theorem assocFind_assocSet_self {α : Type} (l : List (String × α)) (k : String) (v : α) :
    assocFind (assocSet l k v) k = some v := by
  induction l with
  | nil => simp [assocFind, assocSet]
  | cons hd tl ih =>
      obtain ⟨k1, v1⟩ := hd
      by_cases hk : k1 = k
      · simp [assocFind, assocSet, hk]
      · simp [assocFind, assocSet, hk, ih]

theorem assocFind_assocSet_ne {α : Type} (l : List (String × α)) (k k2 : String) (v : α)
    (h : k ≠ k2) : assocFind (assocSet l k v) k2 = assocFind l k2 := by
  induction l with
  | nil => simp [assocFind, assocSet, h]
  | cons hd tl ih =>
      obtain ⟨k1, v1⟩ := hd
      by_cases hk : k1 = k
      · subst hk
        simp [assocFind, assocSet, h]
      · simp [assocFind, assocSet, hk, ih]

/-- A Python/JSON value, as far as the state document and the agent input
need to be distinguished: a string, a list, a dict with string keys, or
anything else (numbers, None, booleans...). -/
inductive PyVal : Type where
  | str (s : String)
  | list (xs : List PyVal)
  | dict (entries : List (String × PyVal))
  | other

/-- A Python dict with string keys holding arbitrary values (the shape of
a parsed JSON object, and of the agent's input dict). -/
abbrev PyDict := List (String × PyVal)

/-- Character class of the regex patterns in the agent:
a-z, A-Z, 0-9, underscore or hyphen. -/
def isIdChar (c : Char) : Bool :=
  (('a' ≤ c && c ≤ 'z') || ('A' ≤ c && c ≤ 'Z') || ('0' ≤ c && c ≤ '9')
    || c == '_' || c == '-')

/-- Whitespace stripped by Python str.strip with no argument
(restricted to the ASCII whitespace characters). -/
def isPySpace (c : Char) : Bool :=
  (c == ' ' || c == '\t' || c == '\n' || c == '\x0d' || c == '\x0b' || c == '\x0c')

/-- Python str.strip(): drop leading and trailing whitespace. -/
def pyStrip (s : String) : String :=
  String.mk (((s.data.dropWhile isPySpace).reverse.dropWhile isPySpace).reverse)

/-- Python str.split on a single comma: every comma is a separator and
empty pieces are kept, so the result always has one more element than the
number of commas. -/
def splitCommaAux : List Char → List Char → List String
  | [], cur => [String.mk cur.reverse]
  | c :: rest, cur =>
      if c == ',' then String.mk cur.reverse :: splitCommaAux rest []
      else splitCommaAux rest (c :: cur)

def splitComma (s : String) : List String := splitCommaAux s.data []

/-- One attempted match of the pattern UC[a-zA-Z0-9_-] repeated 22 times,
anchored at the head of the character list (re.search tries this at each
successive start position). -/
def tryUC (cs : List Char) : Option String :=
  match cs with
  | 'U' :: 'C' :: rest =>
      let body := rest.take 22
      if body.length == 22 && body.all isIdChar then
        some (String.mk ('U' :: 'C' :: body))
      else none
  | _ => none

/-- re.search for the channel-ID pattern: scan start positions left to
right and return the first (leftmost) match. -/
def searchUC : List Char → Option String
  | [] => none
  | c :: cs =>
      match tryUC (c :: cs) with
      | some s => some s
      | none => searchUC cs

/-- Greedy capture of one-or-more id characters; fails when the first
character is not in the class (the + quantifier needs at least one). -/
def takeName (cs : List Char) : Option String :=
  match cs.takeWhile isIdChar with
  | [] => none
  | ds => some (String.mk ds)

/-- One attempted match, at the head position, of the at-sign pattern
capturing one or more id characters after the at sign. -/
def tryAt (cs : List Char) : Option String :=
  match cs with
  | '@' :: rest => takeName rest
  | _ => none

/-- re.search for the at-sign handle pattern (leftmost match). -/
def searchAtName : List Char → Option String
  | [] => none
  | c :: cs =>
      match tryAt (c :: cs) with
      | some s => some s
      | none => searchAtName cs

/-- One attempted match, at the head position, of the path pattern: a
slash, then the literal c or user, then a slash, then one or more id
characters captured.  The two alternatives differ at their first letter,
so at a fixed position at most one can apply. -/
def tryCUser (cs : List Char) : Option String :=
  match cs with
  | '/' :: 'c' :: '/' :: rest => takeName rest
  | '/' :: 'u' :: 's' :: 'e' :: 'r' :: '/' :: rest => takeName rest
  | _ => none

/-- re.search for the /c/name or /user/name pattern (leftmost match). -/
def searchCUser : List Char → Option String
  | [] => none
  | c :: cs =>
      match tryCUser (c :: cs) with
      | some s => some s
      | none => searchCUser cs

/-- YouTubeChannelAgent._extract_channel_id_from_url: return the leftmost
substring of the URL matching the channel-ID pattern, if any. -/
def extract_channel_id_from_url (url : String) : Option String :=
  searchUC url.data

/-- YouTubeChannelAgent._extract_channel_name_from_url: first try the
at-sign handle pattern, then the /c/ or /user/ path pattern. -/
def extract_channel_name_from_url (url : String) : Option String :=
  match searchAtName url.data with
  | some n => some n
  | none => searchCUser url.data

/-- YouTubeChannelAgent._extract_channels: an empty input dict yields no
channels; a string under the channels key is split on commas, each piece
stripped, blanks dropped (and the channel-urls key is not consulted); a
non-string under the channels key falls through to the channel-urls key,
whose list keeps the stripped form of its non-blank string elements; any
other shape yields no channels. -/
def extract_channels (input_data : PyDict) : List String :=
  if input_data.isEmpty then []
  else
    match assocFind input_data "channels" with
    | some (PyVal.str s) =>
        ((splitComma s).map pyStrip).filter (fun u => !u.isEmpty)
    | _ =>
        match assocFind input_data "channel_urls" with
        | some (PyVal.list urls) =>
            urls.filterMap (fun v =>
              match v with
              | PyVal.str u =>
                  let t := pyStrip u
                  if t.isEmpty then none else some t
              | _ => none)
        | _ => []

/-- The well-shaped state document maintained by StateManager for the
agent: the resolved map (channel reference to channel ID) and the
last-seen map (channel ID to video ID).  This is the shape the
StateManager initializer creates and the agent's own writes preserve;
arbitrary loaded shapes are treated by the PyVal StateManager model
further below. -/
structure StateDoc : Type where
  resolved : List (String × String)
  last_seen : List (String × String)
deriving DecidableEq

/-- StateManager.get_resolved on a well-shaped document. -/
def get_resolved (st : StateDoc) (identifier : String) : Option String :=
  assocFind st.resolved identifier

/-- StateManager.set_resolved on a well-shaped document. -/
def set_resolved (st : StateDoc) (identifier channel_id : String) : StateDoc :=
  ⟨assocSet st.resolved identifier channel_id, st.last_seen⟩

/-- StateManager.get_last_seen on a well-shaped document. -/
def get_last_seen (st : StateDoc) (channel_id : String) : Option String :=
  assocFind st.last_seen channel_id

/-- StateManager.set_last_seen on a well-shaped document. -/
def set_last_seen (st : StateDoc) (channel_id video_id : String) : StateDoc :=
  ⟨st.resolved, assocSet st.last_seen channel_id video_id⟩

/-- Python truthiness of a string: the empty string is falsy. -/
def truthyStr (s : String) : Bool := !s.data.isEmpty

/-- Python truthiness of an Optional string: None and the empty string
are falsy. -/
def truthyOpt : Option String → Bool
  | none => false
  | some s => truthyStr s

/-- The video metadata dict built by _get_latest_video from the provider
response (description already truncated there). -/
structure Video : Type where
  channel_id : String
  channel_title : String
  video_id : String
  video_title : String
  video_description : String
  published_at : String
  thumbnail_url : String
  video_url : String
deriving DecidableEq

/-- Observable externally-visible actions of one batch: an external
search-by-name call made while resolving, an external latest-video fetch
for a channel ID, and the terminal state save. -/
inductive Event : Type where
  | lookup (name : String)
  | fetchVideo (channel_id : String)
  | save
deriving DecidableEq

/-- Behaviour of _get_latest_video for one channel ID, as seen by the
batch loop: a video dict, None because the channel or its playlist is
empty or the provider call failed (both are caught inside
_get_latest_video and turned into None), or an exception raised anywhere
inside the per-channel loop body (caught by the loop's own handler). -/
inductive FetchResult : Type where
  | found (v : Video)
  | noVideos
  | exn (msg : String)
deriving DecidableEq

/-- The external world of one batch: the search-by-name provider call
used by _resolve_channel_name_to_id (None models both an empty result
list and a provider error, which that method catches and turns into
None), the per-channel fetch behaviour, and whether the terminal
StateManager.save raises (some message) or succeeds (none). -/
structure Oracle : Type where
  search : String → Option String
  fetch : String → FetchResult
  saveErr : Option String

/-- YouTubeChannelAgent._resolve_channel_id: cache lookup first (Python
truthiness on the cached value), then the direct channel-ID pattern, then
handle extraction followed by one external search call; a truthy result
is written back to the resolved cache before returning.  Returns the
state after the call, the Optional channel ID, and the external lookup
calls made. -/
def resolve_channel_id (o : Oracle) (st : StateDoc) (channel_url : String) :
    StateDoc × Option String × List Event :=
  let cached := get_resolved st channel_url
  if truthyOpt cached then (st, cached, [])
  else
    let fromUrl := extract_channel_id_from_url channel_url
    let step3 :=
      if truthyOpt fromUrl then (fromUrl, ([] : List Event))
      else
        match extract_channel_name_from_url channel_url with
        | some name => (o.search name, [Event.lookup name])
        | none => ((none : Option String), ([] : List Event))
    let cid := step3.1
    let evs := step3.2
    if truthyOpt cid then
      (set_resolved st channel_url (cid.getD ""), cid, evs)
    else (st, cid, evs)

/-- One per-channel error entry (channel reference and message). -/
structure ErrEntry : Type where
  channel : String
  error : String
deriving DecidableEq

/-- One per-channel result entry: the video dict merged with the is-new
flag and the original channel reference. -/
structure ResultEntry : Type where
  video : Video
  is_new : Bool
  channel_url : String
deriving DecidableEq

/-- The three accumulator lists of the batch loop. -/
structure Accum : Type where
  results : List ResultEntry
  new_videos : List Video
  errors : List ErrEntry
deriving DecidableEq

/-- The body of the batch loop for one channel reference: resolve, on a
falsy ID record a resolution error; fetch the latest video, on None
record a not-found error; otherwise classify against last-seen, update
the state and the new-videos list when new, and append the result entry.
An exception raised in the body is caught and recorded as an error. -/
def stepChannel (o : Oracle) (st : StateDoc) (acc : Accum) (channel_url : String) :
    StateDoc × Accum × List Event :=
  let r := resolve_channel_id o st channel_url
  let st1 := r.1
  let cidO := r.2.1
  let evs := r.2.2
  if !truthyOpt cidO then
    (st1, ⟨acc.results, acc.new_videos,
      acc.errors ++ [⟨channel_url, "Could not resolve channel ID"⟩]⟩, evs)
  else
    let cid := cidO.getD ""
    match o.fetch cid with
    | FetchResult.exn msg =>
        (st1, ⟨acc.results, acc.new_videos, acc.errors ++ [⟨channel_url, msg⟩]⟩,
          evs ++ [Event.fetchVideo cid])
    | FetchResult.noVideos =>
        (st1, ⟨acc.results, acc.new_videos,
          acc.errors ++ [⟨channel_url, "No videos found"⟩]⟩,
          evs ++ [Event.fetchVideo cid])
    | FetchResult.found v =>
        let last := get_last_seen st1 cid
        let isNew : Bool := last != some v.video_id
        let st2 := if isNew then set_last_seen st1 cid v.video_id else st1
        let nv := if isNew then acc.new_videos ++ [v] else acc.new_videos
        (st2, ⟨acc.results ++ [⟨v, isNew, channel_url⟩], nv, acc.errors⟩,
          evs ++ [Event.fetchVideo cid])

/-- The batch loop over the channel list, threading state and
accumulators and concatenating the per-channel event lists in order. -/
def runLoop (o : Oracle) : StateDoc → Accum → List String → StateDoc × Accum × List Event
  | st, acc, [] => (st, acc, [])
  | st, acc, url :: rest =>
      let s1 := stepChannel o st acc url
      let s2 := runLoop o s1.1 s1.2.1 rest
      (s2.1, s2.2.1, s1.2.2 ++ s2.2.2)

/-- Status values of AgentResponseStatus (the third constructor models
the PARTIAL member). -/
inductive Status : Type where
  | success
  | failed
  | mixed
deriving DecidableEq

/-- The string value of each AgentResponseStatus member. -/
def statusValue : Status → String
  | Status.success => "success"
  | Status.failed => "failed"
  | Status.mixed => "partial"

/-- The data dict of a response: the full success/partial payload, or the
errors-only payload of the all-failed branch. -/
inductive RespData : Type where
  | full (videos : List ResultEntry) (new_videos : List Video)
      (errors : Option (List ErrEntry)) (total_channels : Nat)
      (successful_channels : Nat)
  | errorsOnly (errors : List ErrEntry)
deriving DecidableEq

/-- AgentResponse as returned by the agent. -/
structure AgentResponse : Type where
  status : Status
  data : Option RespData
  error : Option String
  error_type : Option String
deriving DecidableEq

/-- The outcome of one call to process: the response handed to the
caller, the in-memory state document afterwards, and the trace of
external actions. -/
structure ProcOut : Type where
  resp : AgentResponse
  state : StateDoc
  trace : List Event
deriving DecidableEq

/-- YouTubeChannelAgent.process: validate and extract the channel list
(an empty extraction returns a validation failure with no external
action); run the loop over every reference; invoke save exactly once; if
save raises, the outer handler returns a failure carrying the exception
message and no data; otherwise classify the batch from the results and
errors lists and build the data payload. -/
def process (o : Oracle) (st : StateDoc) (input_data : PyDict) : ProcOut :=
  let channels := extract_channels input_data
  if channels.isEmpty then
    ⟨⟨Status.failed, none, some "No valid channels provided", some "validation_error"⟩,
      st, []⟩
  else
    let r := runLoop o st ⟨[], [], []⟩ channels
    let st1 := r.1
    let acc := r.2.1
    let evs := r.2.2
    match o.saveErr with
    | some msg =>
        ⟨⟨Status.failed, none, some msg, some "unexpected_error"⟩, st1,
          evs ++ [Event.save]⟩
    | none =>
        if acc.results.isEmpty && !acc.errors.isEmpty then
          ⟨⟨Status.failed, some (RespData.errorsOnly acc.errors),
              some "Failed to process any channels", some "processing_error"⟩,
            st1, evs ++ [Event.save]⟩
        else
          let status :=
            if !acc.results.isEmpty && !acc.errors.isEmpty then Status.mixed
            else Status.success
          ⟨⟨status,
              some (RespData.full acc.results acc.new_videos
                (if acc.errors.isEmpty then none else some acc.errors)
                channels.length acc.results.length),
              none, none⟩,
            st1, evs ++ [Event.save]⟩

namespace StateManager

/-- StateManager.get_resolved over an arbitrary dict-shaped document:
dict.get of the resolved key defaulting to an empty dict, then .get of
the identifier.  A non-dict value under the resolved key has no .get
attribute, so the access raises (modelled as an error). -/
def get_resolved (d : PyDict) (identifier : String) : Except String (Option PyVal) :=
  match assocFind d "resolved" with
  | none => Except.ok none
  | some (PyVal.dict m) => Except.ok (assocFind m identifier)
  | some _ => Except.error "AttributeError"

/-- StateManager.set_resolved over an arbitrary dict-shaped document:
setdefault of an empty dict under the resolved key, then item assignment.
A non-dict existing value does not support item assignment, so the
assignment raises (modelled as an error). -/
def set_resolved (d : PyDict) (identifier channel_id : String) : Except String PyDict :=
  match assocFind d "resolved" with
  | none =>
      Except.ok (assocSet d "resolved" (PyVal.dict [(identifier, PyVal.str channel_id)]))
  | some (PyVal.dict m) =>
      Except.ok (assocSet d "resolved" (PyVal.dict (assocSet m identifier (PyVal.str channel_id))))
  | some _ => Except.error "TypeError"

/-- StateManager.get_last_seen over an arbitrary dict-shaped document
(same access pattern as get_resolved, on the last-seen key). -/
def get_last_seen (d : PyDict) (channel_id : String) : Except String (Option PyVal) :=
  match assocFind d "last_seen" with
  | none => Except.ok none
  | some (PyVal.dict m) => Except.ok (assocFind m channel_id)
  | some _ => Except.error "AttributeError"

/-- StateManager.set_last_seen over an arbitrary dict-shaped document
(same mutation pattern as set_resolved, on the last-seen key). -/
def set_last_seen (d : PyDict) (channel_id video_id : String) : Except String PyDict :=
  match assocFind d "last_seen" with
  | none =>
      Except.ok (assocSet d "last_seen" (PyVal.dict [(channel_id, PyVal.str video_id)]))
  | some (PyVal.dict m) =>
      Except.ok (assocSet d "last_seen" (PyVal.dict (assocSet m channel_id (PyVal.str video_id))))
  | some _ => Except.error "TypeError"

end StateManager

/-- The fresh default document both storage backends fall back to:
resolved and last-seen maps both empty. -/
def defaultState : PyVal :=
  PyVal.dict [("resolved", PyVal.dict []), ("last_seen", PyVal.dict [])]

/-- The observable condition of the local state file when load runs: the
file does not exist, it exists but opening or reading it raises, or it
holds some text. -/
inductive LocalFileState : Type where
  | missing
  | unreadable
  | content (s : String)

/-- LocalFileStorage.load: return the parsed file content when the file
exists and parses; on a missing file, a read error or a parse error fall
back to the fresh default document (the read and the parse run inside a
handler that swallows every exception).  The JSON parser is external
library code, modelled as a parameter returning None when parsing
raises. -/
def LocalFileStorage.load (parse : String → Option PyVal) :
    LocalFileState → PyVal
  | LocalFileState.missing => defaultState
  | LocalFileState.unreadable => defaultState
  | LocalFileState.content s =>
      match parse s with
      | some v => v
      | none => defaultState

/-- The observable condition of the state blob when load runs: the blob
does not exist (the not-found error type), the download or the decode
raises some other exception, or it holds some decoded text. -/
inductive BlobState : Type where
  | notFound
  | downloadError
  | content (s : String)

/-- BlobStorage.load: download and parse the blob; the not-found error
and any other exception (download, decode or parse failure) both fall
back to the fresh default document. -/
def BlobStorage.load (parse : String → Option PyVal) : BlobState → PyVal
  | BlobState.notFound => defaultState
  | BlobState.downloadError => defaultState
  | BlobState.content s =>
      match parse s with
      | some v => v
      | none => defaultState

/-- Modelled from the claim, for comparison with the source translation:
the strictly ordered first-success-wins resolution strategy (with the
cache step amended to require a truthy cached value).  Returns the
resolved ID and the external lookup calls made. -/
def resolveSpecOrdered (o : Oracle) (st : StateDoc) (channel_url : String) :
    Option String × List Event :=
  match get_resolved st channel_url with
  | some c =>
      if truthyStr c then (some c, [])
      else resolveSpecFallback o channel_url
  | none => resolveSpecFallback o channel_url
where
  /-- The pattern-match and external-lookup steps of the strategy. -/
  resolveSpecFallback (o : Oracle) (channel_url : String) : Option String × List Event :=
    match searchUC channel_url.data with
    | some cid => (some cid, [])
    | none =>
        match extract_channel_name_from_url channel_url with
        | some name => (o.search name, [Event.lookup name])
        | none => (none, [])



theorem truthyOpt_some (s : String) : truthyOpt (some s) = truthyStr s := rfl

theorem truthyOpt_none : truthyOpt none = false := rfl

theorem tryUC_truthy (cs : List Char) (s : String) (h : tryUC cs = some s) :
    truthyStr s = true := by
  unfold tryUC at h
  split at h
  · simp only [] at h
    split at h
    · cases h
      rfl
    · cases h
  · cases h

theorem searchUC_truthy (cs : List Char) (s : String) (h : searchUC cs = some s) :
    truthyStr s = true := by
  induction cs with
  | nil => simp [searchUC] at h
  | cons c rest ih =>
      cases htry : tryUC (c :: rest) with
      | none =>
          simp only [searchUC, htry] at h
          exact ih h
      | some t =>
          simp only [searchUC, htry, Option.some.injEq] at h
          exact h ▸ tryUC_truthy (c :: rest) t htry

theorem resolve_cache_hit (o : Oracle) (st : StateDoc) (url : String)
    (h : truthyOpt (get_resolved st url) = true) :
    resolve_channel_id o st url = (st, get_resolved st url, []) := by
  simp [resolve_channel_id, h]

theorem resolve_direct_id (o : Oracle) (st : StateDoc) (url cid : String)
    (h1 : truthyOpt (get_resolved st url) = false)
    (h2 : extract_channel_id_from_url url = some cid) :
    resolve_channel_id o st url = (set_resolved st url cid, some cid, []) := by
  have ht : truthyStr cid = true := searchUC_truthy url.data cid h2
  simp [resolve_channel_id, h1, h2, truthyOpt_some, ht]

theorem resolve_via_search_hit (o : Oracle) (st : StateDoc) (url name cid : String)
    (h1 : truthyOpt (get_resolved st url) = false)
    (h2 : truthyOpt (extract_channel_id_from_url url) = false)
    (h3 : extract_channel_name_from_url url = some name)
    (h4 : o.search name = some cid) (h5 : truthyStr cid = true) :
    resolve_channel_id o st url
      = (set_resolved st url cid, some cid, [Event.lookup name]) := by
  simp [resolve_channel_id, h1, h2, h3, h4, truthyOpt_some, h5]

theorem resolve_via_search_miss (o : Oracle) (st : StateDoc) (url name : String)
    (h1 : truthyOpt (get_resolved st url) = false)
    (h2 : truthyOpt (extract_channel_id_from_url url) = false)
    (h3 : extract_channel_name_from_url url = some name)
    (h4 : truthyOpt (o.search name) = false) :
    resolve_channel_id o st url = (st, o.search name, [Event.lookup name]) := by
  simp [resolve_channel_id, h1, h2, h3, h4]

theorem resolve_no_name (o : Oracle) (st : StateDoc) (url : String)
    (h1 : truthyOpt (get_resolved st url) = false)
    (h2 : truthyOpt (extract_channel_id_from_url url) = false)
    (h3 : extract_channel_name_from_url url = none) :
    resolve_channel_id o st url = (st, none, []) := by
  simp [resolve_channel_id, h1, h2, h3, truthyOpt_none]

/-- Case principle covering the five possible outcomes of one resolution
call: cache hit, direct pattern match, handle lookup that succeeds,
handle lookup that fails, and no extractable handle. -/
theorem resolve_cases (o : Oracle) (st : StateDoc) (url : String)
    (P : StateDoc × Option String × List Event → Prop)
    (hcache : ∀ cid, get_resolved st url = some cid → truthyStr cid = true →
        P (st, some cid, []))
    (hdirect : ∀ cid, truthyOpt (get_resolved st url) = false →
        extract_channel_id_from_url url = some cid →
        P (set_resolved st url cid, some cid, []))
    (hhit : ∀ name cid, truthyOpt (get_resolved st url) = false →
        extract_channel_id_from_url url = none →
        extract_channel_name_from_url url = some name →
        o.search name = some cid → truthyStr cid = true →
        P (set_resolved st url cid, some cid, [Event.lookup name]))
    (hmiss : ∀ name, truthyOpt (get_resolved st url) = false →
        extract_channel_id_from_url url = none →
        extract_channel_name_from_url url = some name →
        truthyOpt (o.search name) = false →
        P (st, o.search name, [Event.lookup name]))
    (hnone : truthyOpt (get_resolved st url) = false →
        extract_channel_id_from_url url = none →
        extract_channel_name_from_url url = none →
        P (st, none, [])) :
    P (resolve_channel_id o st url) := by
  by_cases h1 : truthyOpt (get_resolved st url) = true
  · rw [resolve_cache_hit o st url h1]
    cases hc : get_resolved st url with
    | none =>
        rw [hc] at h1
        exact absurd h1 (by simp [truthyOpt_none])
    | some cid =>
        rw [hc] at h1
        exact hcache cid hc (by simpa [truthyOpt_some] using h1)
  · replace h1 : truthyOpt (get_resolved st url) = false := by
      cases hb : truthyOpt (get_resolved st url)
      · rfl
      · exact absurd hb h1
    cases hext : extract_channel_id_from_url url with
    | some cid =>
        rw [resolve_direct_id o st url cid h1 hext]
        exact hdirect cid h1 hext
    | none =>
        have h2 : truthyOpt (extract_channel_id_from_url url) = false := by
          rw [hext]; rfl
        cases hname : extract_channel_name_from_url url with
        | none =>
            rw [resolve_no_name o st url h1 h2 hname]
            exact hnone h1 hext hname
        | some name =>
            by_cases h4 : truthyOpt (o.search name) = true
            · cases hs : o.search name with
              | none =>
                  rw [hs] at h4
                  exact absurd h4 (by simp [truthyOpt_none])
              | some cid =>
                  have h5 : truthyStr cid = true := by
                    rw [hs] at h4
                    simpa [truthyOpt_some] using h4
                  rw [resolve_via_search_hit o st url name cid h1 h2 hname hs h5]
                  exact hhit name cid h1 hext hname hs h5
            · replace h4 : truthyOpt (o.search name) = false := by
                cases hb : truthyOpt (o.search name)
                · rfl
                · exact absurd hb h4
              rw [resolve_via_search_miss o st url name h1 h2 hname h4]
              exact hmiss name h1 hext hname h4

theorem resolve_preserves_last_seen (o : Oracle) (st : StateDoc) (url : String) :
    (resolve_channel_id o st url).1.last_seen = st.last_seen := by
  refine resolve_cases o st url (fun r => r.1.last_seen = st.last_seen) ?_ ?_ ?_ ?_ ?_
  · intro cid _ _; rfl
  · intro cid _ _; rfl
  · intro name cid _ _ _ _ _; rfl
  · intro name _ _ _ _; rfl
  · intro _ _ _; rfl

theorem get_last_seen_resolve (o : Oracle) (st : StateDoc) (url cid : String) :
    get_last_seen (resolve_channel_id o st url).1 cid = get_last_seen st cid := by
  simp only [get_last_seen, resolve_preserves_last_seen]

theorem resolve_events_len (o : Oracle) (st : StateDoc) (url : String) :
    (resolve_channel_id o st url).2.2.length ≤ 1 := by
  refine resolve_cases o st url (fun r => r.2.2.length ≤ 1) ?_ ?_ ?_ ?_ ?_
  · intro cid _ _; simp
  · intro cid _ _; simp
  · intro name cid _ _ _ _ _; simp
  · intro name _ _ _ _; simp
  · intro _ _ _; simp

theorem resolve_no_save (o : Oracle) (st : StateDoc) (url : String) :
    Event.save ∉ (resolve_channel_id o st url).2.2 := by
  refine resolve_cases o st url (fun r => Event.save ∉ r.2.2) ?_ ?_ ?_ ?_ ?_
  · intro cid _ _; simp
  · intro cid _ _; simp
  · intro name cid _ _ _ _ _; simp
  · intro name _ _ _ _; simp
  · intro _ _ _; simp

theorem resolve_success_cached (o : Oracle) (st : StateDoc) (url cid : String)
    (h : (resolve_channel_id o st url).2.1 = some cid) (ht : truthyStr cid = true) :
    get_resolved (resolve_channel_id o st url).1 url = some cid := by
  revert h
  refine resolve_cases o st url
    (fun r => r.2.1 = some cid → get_resolved r.1 url = some cid) ?_ ?_ ?_ ?_ ?_
  · intro c hc _ h
    simpa [← h] using hc
  · intro c _ _ h
    simp only at h
    cases h
    simp [get_resolved, set_resolved, assocFind_assocSet_self]
  · intro name c _ _ _ _ _ h
    simp only at h
    cases h
    simp [get_resolved, set_resolved, assocFind_assocSet_self]
  · intro name _ _ _ h4 h
    simp only at h
    rw [h, truthyOpt_some, ht] at h4
    cases h4
  · intro _ _ _ h
    cases h

theorem resolve_idempotent (o : Oracle) (st : StateDoc) (url cid : String)
    (h : get_resolved st url = some cid) (ht : truthyStr cid = true) :
    resolve_channel_id o st url = (st, some cid, []) := by
  have hc : truthyOpt (get_resolved st url) = true := by rw [h, truthyOpt_some, ht]
  rw [resolve_cache_hit o st url hc, h]

theorem stepChannel_found (o : Oracle) (st : StateDoc) (acc : Accum) (url cid : String)
    (v : Video)
    (hres : (resolve_channel_id o st url).2.1 = some cid)
    (ht : truthyStr cid = true)
    (hf : o.fetch cid = FetchResult.found v) :
    stepChannel o st acc url =
      ((if (get_last_seen st cid != some v.video_id) = true
          then set_last_seen (resolve_channel_id o st url).1 cid v.video_id
          else (resolve_channel_id o st url).1),
       ⟨acc.results ++ [⟨v, get_last_seen st cid != some v.video_id, url⟩],
        (if (get_last_seen st cid != some v.video_id) = true
          then acc.new_videos ++ [v] else acc.new_videos),
        acc.errors⟩,
       (resolve_channel_id o st url).2.2 ++ [Event.fetchVideo cid]) := by
  simp only [stepChannel, hres, truthyOpt_some, ht, Bool.not_true, Option.getD_some, hf,
    get_last_seen_resolve]
  simp

theorem stepChannel_count (o : Oracle) (st : StateDoc) (acc : Accum) (url : String) :
    (stepChannel o st acc url).2.1.results.length
        + (stepChannel o st acc url).2.1.errors.length
      = acc.results.length + acc.errors.length + 1 := by
  simp only [stepChannel]
  by_cases hb : truthyOpt (resolve_channel_id o st url).2.1 = true
  · simp only [hb, Bool.not_true]
    cases hf : o.fetch ((resolve_channel_id o st url).2.1.getD "") <;>
      simp [hf] <;> omega
  · replace hb : truthyOpt (resolve_channel_id o st url).2.1 = false := by
      cases hx : truthyOpt (resolve_channel_id o st url).2.1
      · rfl
      · exact absurd hx hb
    simp [hb]
    omega

theorem stepChannel_no_save (o : Oracle) (st : StateDoc) (acc : Accum) (url : String) :
    Event.save ∉ (stepChannel o st acc url).2.2 := by
  simp only [stepChannel]
  by_cases hb : truthyOpt (resolve_channel_id o st url).2.1 = true
  · simp only [hb, Bool.not_true]
    cases hf : o.fetch ((resolve_channel_id o st url).2.1.getD "") <;>
      simp [hf, List.mem_append, resolve_no_save]
  · replace hb : truthyOpt (resolve_channel_id o st url).2.1 = false := by
      cases hx : truthyOpt (resolve_channel_id o st url).2.1
      · rfl
      · exact absurd hx hb
    simp [hb, resolve_no_save]

theorem runLoop_nil (o : Oracle) (st : StateDoc) (acc : Accum) :
    runLoop o st acc [] = (st, acc, []) := rfl

theorem runLoop_cons (o : Oracle) (st : StateDoc) (acc : Accum) (url : String)
    (rest : List String) :
    runLoop o st acc (url :: rest) =
      ((runLoop o (stepChannel o st acc url).1 (stepChannel o st acc url).2.1 rest).1,
       (runLoop o (stepChannel o st acc url).1 (stepChannel o st acc url).2.1 rest).2.1,
       (stepChannel o st acc url).2.2
         ++ (runLoop o (stepChannel o st acc url).1 (stepChannel o st acc url).2.1 rest).2.2) :=
  rfl

/-- Every channel reference attempted by the loop ends up in exactly one
of the two outcome lists: results plus errors grow by exactly the length
of the channel list. -/
theorem runLoop_count (o : Oracle) (chs : List String) :
    ∀ (st : StateDoc) (acc : Accum),
      (runLoop o st acc chs).2.1.results.length + (runLoop o st acc chs).2.1.errors.length
        = acc.results.length + acc.errors.length + chs.length := by
  induction chs with
  | nil => intro st acc; simp [runLoop_nil]
  | cons url rest ih =>
      intro st acc
      rw [runLoop_cons]
      simp only []
      rw [ih]
      have := stepChannel_count o st acc url
      simp only [List.length_cons]
      omega

/-- The loop body never performs the terminal save. -/
theorem runLoop_no_save (o : Oracle) (chs : List String) :
    ∀ (st : StateDoc) (acc : Accum), Event.save ∉ (runLoop o st acc chs).2.2 := by
  induction chs with
  | nil => intro st acc; simp [runLoop_nil]
  | cons url rest ih =>
      intro st acc
      rw [runLoop_cons]
      simp only [List.mem_append]
      intro h
      rcases h with h1 | h2
      · exact stepChannel_no_save o st acc url h1
      · exact ih _ _ h2

/-- Claim C8: for every input whose extracted channel-reference list is
empty (missing key, wrong type, or only blank entries), process returns
the validation failure immediately: the response is the fixed validation
error, the state is unchanged (no map entry mutated), and the trace is
empty (no resolution, no external call, no save). -/
theorem c8_validation_error (o : Oracle) (st : StateDoc) (input_data : PyDict)
    (h : extract_channels input_data = []) :
    process o st input_data =
      ⟨⟨Status.failed, none, some "No valid channels provided", some "validation_error"⟩,
        st, []⟩ := by
  simp [process, h]

/-- Claim C6: for every batch that passes input validation, the terminal
save is invoked exactly once and only after every reference was
attempted: the trace is the loop's events followed by a single save event
(and no save occurs inside the loop), and every reference contributes
exactly one outcome, so results plus errors together count the whole
channel list — per-channel failures never abort the loop and never skip
or duplicate the save. -/
theorem c6_single_save (o : Oracle) (st : StateDoc) (input_data : PyDict)
    (hne : extract_channels input_data ≠ []) :
    (process o st input_data).trace
        = (runLoop o st ⟨[], [], []⟩ (extract_channels input_data)).2.2 ++ [Event.save] ∧
    Event.save ∉ (runLoop o st ⟨[], [], []⟩ (extract_channels input_data)).2.2 ∧
    (runLoop o st ⟨[], [], []⟩ (extract_channels input_data)).2.1.results.length
        + (runLoop o st ⟨[], [], []⟩ (extract_channels input_data)).2.1.errors.length
      = (extract_channels input_data).length := by
  have h1 : (extract_channels input_data).isEmpty = false := by
    cases hx : extract_channels input_data
    · exact absurd hx hne
    · rfl
  refine ⟨?_, runLoop_no_save o (extract_channels input_data) st ⟨[], [], []⟩, ?_⟩
  · simp only [process, h1, Bool.false_eq_true, if_false]
    cases hs : o.saveErr with
    | some msg => rfl
    | none =>
        simp only []
        split
        · rfl
        · rfl
  · have h2 := runLoop_count o (extract_channels input_data) st ⟨[], [], []⟩
    simpa using h2

/-- Claim C5: for every non-empty batch whose terminal save succeeds, the
overall status is failed exactly when no channel produced a result and at
least one error occurred, partial exactly when there is at least one
result and at least one error, and success exactly when there is no
error. -/
theorem c5_batch_outcome (o : Oracle) (st : StateDoc) (input_data : PyDict)
    (hne : extract_channels input_data ≠ []) (hsave : o.saveErr = none) :
    ((process o st input_data).resp.status = Status.failed ↔
      (runLoop o st ⟨[], [], []⟩ (extract_channels input_data)).2.1.results = []
        ∧ (runLoop o st ⟨[], [], []⟩ (extract_channels input_data)).2.1.errors ≠ []) ∧
    ((process o st input_data).resp.status = Status.mixed ↔
      (runLoop o st ⟨[], [], []⟩ (extract_channels input_data)).2.1.results ≠ []
        ∧ (runLoop o st ⟨[], [], []⟩ (extract_channels input_data)).2.1.errors ≠ []) ∧
    ((process o st input_data).resp.status = Status.success ↔
      (runLoop o st ⟨[], [], []⟩ (extract_channels input_data)).2.1.errors = []) := by
  have h1 : (extract_channels input_data).isEmpty = false := by
    cases hx : extract_channels input_data
    · exact absurd hx hne
    · rfl
  simp only [process, h1, Bool.false_eq_true, if_false, hsave]
  cases hres : (runLoop o st ⟨[], [], []⟩ (extract_channels input_data)).2.1.results with
  | nil =>
      cases herr : (runLoop o st ⟨[], [], []⟩ (extract_channels input_data)).2.1.errors with
      | nil => simp
      | cons e es => simp
  | cons x xs =>
      cases herr : (runLoop o st ⟨[], [], []⟩ (extract_channels input_data)).2.1.errors with
      | nil => simp
      | cons e es => simp

/-- Claim C1, amended: when the terminal save raises, the response handed
to the caller is a failed response carrying the save exception message
and no data at all — the per-channel results computed during the batch
are not included in the response — while the in-memory state produced by
the loop (including its last-seen mutations) is retained, and save was
still attempted once after the loop. -/
theorem c1_results_discarded_on_save_failure (o : Oracle) (st : StateDoc)
    (input_data : PyDict) (msg : String)
    (hne : extract_channels input_data ≠ []) (hsave : o.saveErr = some msg) :
    process o st input_data =
      ⟨⟨Status.failed, none, some msg, some "unexpected_error"⟩,
        (runLoop o st ⟨[], [], []⟩ (extract_channels input_data)).1,
        (runLoop o st ⟨[], [], []⟩ (extract_channels input_data)).2.2
          ++ [Event.save]⟩ := by
  have h1 : (extract_channels input_data).isEmpty = false := by
    cases hx : extract_channels input_data
    · exact absurd hx hne
    · rfl
  simp only [process, h1, Bool.false_eq_true, if_false, hsave]

/-- Claim C3: when a resolution of a reference succeeds (a truthy channel
ID is returned), the mapping is in the resolved cache when the call
returns; resolving the identical reference again returns the same
channel ID from the cache with no external lookup event at all, and the
two calls together perform at most one external lookup. -/
theorem c3_idempotent_resolution (o : Oracle) (st : StateDoc) (url cid : String)
    (h : (resolve_channel_id o st url).2.1 = some cid) (ht : truthyStr cid = true) :
    get_resolved (resolve_channel_id o st url).1 url = some cid ∧
    resolve_channel_id o (resolve_channel_id o st url).1 url
      = ((resolve_channel_id o st url).1, some cid, []) ∧
    (resolve_channel_id o st url).2.2.length
        + (resolve_channel_id o (resolve_channel_id o st url).1 url).2.2.length ≤ 1 := by
  have hc := resolve_success_cached o st url cid h ht
  have h2 := resolve_idempotent o (resolve_channel_id o st url).1 url cid hc ht
  refine ⟨hc, h2, ?_⟩
  have h3 := resolve_events_len o st url
  rw [h2]
  simpa using h3

/-- Claim C4: for a channel whose reference resolves and whose latest
video is fetched, the result entry appended for it carries the is-new
flag computed as "prior last-seen value differs from the fetched video
ID"; that flag is true exactly when the prior value is absent or differs;
when the channel is new its last-seen entry is set to the fetched video
ID in the state the step returns (before any later channel runs); when it
is unchanged the last-seen map is not written at all. -/
theorem c4_freshness_classification (o : Oracle) (st : StateDoc) (acc : Accum)
    (url cid : String) (v : Video)
    (hres : (resolve_channel_id o st url).2.1 = some cid)
    (ht : truthyStr cid = true)
    (hf : o.fetch cid = FetchResult.found v) :
    ((stepChannel o st acc url).2.1.results
        = acc.results ++ [⟨v, get_last_seen st cid != some v.video_id, url⟩]) ∧
    ((get_last_seen st cid != some v.video_id) = true ↔
        (get_last_seen st cid = none
          ∨ ∃ s, get_last_seen st cid = some s ∧ s ≠ v.video_id)) ∧
    ((get_last_seen st cid != some v.video_id) = true →
        get_last_seen (stepChannel o st acc url).1 cid = some v.video_id) ∧
    ((get_last_seen st cid != some v.video_id) = false →
        (stepChannel o st acc url).1.last_seen = st.last_seen) := by
  rw [stepChannel_found o st acc url cid v hres ht hf]
  refine ⟨rfl, ?_, ?_, ?_⟩
  · cases hls : get_last_seen st cid with
    | none => simp
    | some s => by_cases hss : s = v.video_id <;> simp [hss]
  · intro hnew
    simp only [hnew, if_pos]
    simp [get_last_seen, set_last_seen, assocFind_assocSet_self]
  · intro hold
    simp only [hold, Bool.false_eq_true, if_false]
    exact resolve_preserves_last_seen o st url

/-- Claim C10: in a batch consisting of the same reference twice, when
that reference resolves to a truthy channel ID and its fetch yields a
video, both occurrences appear in the results list in order; the first
carries the genuine is-new comparison against the incoming state, and the
second is always classified unchanged, because the first occurrence
leaves the last-seen entry equal to the fetched video ID. -/
theorem c10_duplicate_reference (o : Oracle) (st : StateDoc) (r cid : String) (v : Video)
    (hres : (resolve_channel_id o st r).2.1 = some cid)
    (ht : truthyStr cid = true)
    (hf : o.fetch cid = FetchResult.found v) :
    (runLoop o st ⟨[], [], []⟩ [r, r]).2.1.results
      = [⟨v, get_last_seen st cid != some v.video_id, r⟩, ⟨v, false, r⟩] := by
  have hc : get_resolved (resolve_channel_id o st r).1 r = some cid :=
    resolve_success_cached o st r cid hres ht
  have h1 := stepChannel_found o st ⟨[], [], []⟩ r cid v hres ht hf
  cases hb : (get_last_seen st cid != some v.video_id) with
  | true =>
      simp only [hb, if_pos] at h1
      have hgr : get_resolved
          (set_last_seen (resolve_channel_id o st r).1 cid v.video_id) r = some cid := hc
      have hres2 := resolve_idempotent o
        (set_last_seen (resolve_channel_id o st r).1 cid v.video_id) r cid hgr ht
      have h2 := stepChannel_found o
        (set_last_seen (resolve_channel_id o st r).1 cid v.video_id)
        ⟨[⟨v, true, r⟩], [v], []⟩ r cid v (by rw [hres2]) ht hf
      have hls2 : get_last_seen
          (set_last_seen (resolve_channel_id o st r).1 cid v.video_id) cid
          = some v.video_id := by
        simp [get_last_seen, set_last_seen, assocFind_assocSet_self]
      rw [hls2] at h2
      simp only [bne_self_eq_false, Bool.false_eq_true, if_false] at h2
      rw [runLoop_cons, h1]
      dsimp only
      simp only [List.nil_append]
      rw [runLoop_cons, h2]
      dsimp only
      rw [runLoop_nil]
      simp
  | false =>
      simp only [hb, Bool.false_eq_true, if_false] at h1
      have hres2 := resolve_idempotent o (resolve_channel_id o st r).1 r cid hc ht
      have h2 := stepChannel_found o (resolve_channel_id o st r).1
        ⟨[⟨v, false, r⟩], [], []⟩ r cid v (by rw [hres2]) ht hf
      have hlseq : get_last_seen st cid = some v.video_id := by
        have := hb
        simpa [bne_eq_false_iff_eq] using this
      have hls2 : get_last_seen (resolve_channel_id o st r).1 cid = some v.video_id := by
        rw [get_last_seen_resolve, hlseq]
      rw [hls2] at h2
      simp only [bne_self_eq_false, Bool.false_eq_true, if_false] at h2
      rw [runLoop_cons, h1]
      dsimp only
      simp only [List.nil_append]
      rw [runLoop_cons, h2]
      dsimp only
      rw [runLoop_nil]
      simp

/-- A state document holding a falsy (empty-string) cached channel ID for
the reference abc, as a loaded state file may contain. -/
def c2State : StateDoc := ⟨[("abc", "")], []⟩

/-- An oracle whose search always fails and whose fetches find nothing. -/
def c2Oracle : Oracle := ⟨fun _ => none, fun _ => FetchResult.noVideos, none⟩

/-- Claim C2 counterexample: the reference abc is a key of the resolved
cache (value the empty string), yet resolution does not return the cached
value — the truthiness test on the cached value makes the resolver fall
through to extraction, which fails, so the call returns no ID at all. -/
theorem c2_counterexample :
    (get_resolved c2State "abc").isSome = true ∧
    (resolve_channel_id c2Oracle c2State "abc").2.1 ≠ get_resolved c2State "abc" := by
  refine ⟨rfl, ?_⟩
  decide

theorem resolveSpecOrdered_not_cached (o : Oracle) (st : StateDoc) (url : String)
    (h : truthyOpt (get_resolved st url) = false) :
    resolveSpecOrdered o st url = resolveSpecOrdered.resolveSpecFallback o url := by
  unfold resolveSpecOrdered
  cases hc : get_resolved st url with
  | none => rfl
  | some c =>
      have hcf : truthyStr c = false := by
        rw [hc, truthyOpt_some] at h
        exact h
      simp [hcf]

/-- Claim C2, amended: resolution follows the strictly ordered
first-success-wins strategy with the cache step keyed on a truthy (non
empty) cached value: a truthy cached ID is returned with no lookup; else
a reference containing a channel-ID-shaped substring resolves to the
leftmost such substring with no lookup; else a handle extracted from an
at-sign, /c/ or /user/ segment triggers exactly one external search
call whose result is returned; else the resolution fails with no lookup.
Stated as: the result and event components of the source resolver always
coincide with the strategy as the amended claim describes it. -/
theorem c2_resolution_strategy (o : Oracle) (st : StateDoc) (url : String) :
    ((resolve_channel_id o st url).2.1, (resolve_channel_id o st url).2.2)
      = resolveSpecOrdered o st url := by
  refine resolve_cases o st url
    (fun r => (r.2.1, r.2.2) = resolveSpecOrdered o st url) ?_ ?_ ?_ ?_ ?_
  · intro cid hc htr
    simp [resolveSpecOrdered, hc, htr]
  · intro cid h1 hext
    rw [resolveSpecOrdered_not_cached o st url h1]
    have hs : searchUC url.data = some cid := hext
    simp [resolveSpecOrdered.resolveSpecFallback, hs]
  · intro name cid h1 hext hname hsearch h5
    rw [resolveSpecOrdered_not_cached o st url h1]
    have hs : searchUC url.data = none := hext
    simp [resolveSpecOrdered.resolveSpecFallback, hs, hname, hsearch]
  · intro name h1 hext hname h4
    rw [resolveSpecOrdered_not_cached o st url h1]
    have hs : searchUC url.data = none := hext
    simp [resolveSpecOrdered.resolveSpecFallback, hs, hname]
  · intro h1 hext hname
    rw [resolveSpecOrdered_not_cached o st url h1]
    have hs : searchUC url.data = none := hext
    simp [resolveSpecOrdered.resolveSpecFallback, hs, hname]

/-- Claim C7: on every failure condition of the backing store — missing
file or blob, unreadable or undecodable content, unparseable text — both
storage loaders return the fresh document with both maps empty instead of
raising (the loaders are total functions; first run and corruption give
the identical result). -/
theorem c7_fail_open_load (parse : String → Option PyVal) (s : String)
    (hp : parse s = none) :
    LocalFileStorage.load parse LocalFileState.missing = defaultState ∧
    LocalFileStorage.load parse LocalFileState.unreadable = defaultState ∧
    LocalFileStorage.load parse (LocalFileState.content s) = defaultState ∧
    BlobStorage.load parse BlobState.notFound = defaultState ∧
    BlobStorage.load parse BlobState.downloadError = defaultState ∧
    BlobStorage.load parse (BlobState.content s) = defaultState := by
  refine ⟨rfl, rfl, ?_, rfl, rfl, ?_⟩ <;>
    simp [LocalFileStorage.load, BlobStorage.load, hp]

/-- Claim C9 counterexample: a dictionary-shaped document whose resolved
key holds a non-dict value makes get_resolved raise (the value has no get
attribute), rather than return the absent value. -/
theorem c9_counterexample :
    StateManager.get_resolved [("resolved", PyVal.str "UCxyz")] "someref"
      = Except.error "AttributeError" := rfl

/-- Claim C9, amended: on every dictionary-shaped document whose resolved
and last-seen values, when present, are themselves dictionaries — in
particular on documents lacking either key entirely — all four
StateManager accessors are total: the getters return a value (the absent
value when the map or the key is missing) without raising, and the
setters succeed, creating the missing map before inserting. -/
theorem c9_total_accessors (d : PyDict) (identifier channel_id video_id : String)
    (hr : ∀ v, assocFind d "resolved" = some v → ∃ m, v = PyVal.dict m)
    (hl : ∀ v, assocFind d "last_seen" = some v → ∃ m, v = PyVal.dict m) :
    (∃ r, StateManager.get_resolved d identifier = Except.ok r) ∧
    (∃ r, StateManager.get_last_seen d channel_id = Except.ok r) ∧
    (∃ d2, StateManager.set_resolved d identifier channel_id = Except.ok d2) ∧
    (∃ d2, StateManager.set_last_seen d channel_id video_id = Except.ok d2) ∧
    (assocFind d "resolved" = none →
      StateManager.get_resolved d identifier = Except.ok none ∧
      StateManager.set_resolved d identifier channel_id
        = Except.ok (assocSet d "resolved"
            (PyVal.dict [(identifier, PyVal.str channel_id)]))) ∧
    (assocFind d "last_seen" = none →
      StateManager.get_last_seen d channel_id = Except.ok none ∧
      StateManager.set_last_seen d channel_id video_id
        = Except.ok (assocSet d "last_seen"
            (PyVal.dict [(channel_id, PyVal.str video_id)]))) := by
  refine ⟨?_, ?_, ?_, ?_, ?_, ?_⟩
  · cases hv : assocFind d "resolved" with
    | none => exact ⟨none, by simp [StateManager.get_resolved, hv]⟩
    | some v =>
        obtain ⟨m, rfl⟩ := hr v hv
        exact ⟨assocFind m identifier, by simp [StateManager.get_resolved, hv]⟩
  · cases hv : assocFind d "last_seen" with
    | none => exact ⟨none, by simp [StateManager.get_last_seen, hv]⟩
    | some v =>
        obtain ⟨m, rfl⟩ := hl v hv
        exact ⟨assocFind m channel_id, by simp [StateManager.get_last_seen, hv]⟩
  · cases hv : assocFind d "resolved" with
    | none =>
        exact ⟨assocSet d "resolved" (PyVal.dict [(identifier, PyVal.str channel_id)]),
          by simp [StateManager.set_resolved, hv]⟩
    | some v =>
        obtain ⟨m, rfl⟩ := hr v hv
        exact ⟨assocSet d "resolved" (PyVal.dict (assocSet m identifier (PyVal.str channel_id))),
          by simp [StateManager.set_resolved, hv]⟩
  · cases hv : assocFind d "last_seen" with
    | none =>
        exact ⟨assocSet d "last_seen" (PyVal.dict [(channel_id, PyVal.str video_id)]),
          by simp [StateManager.set_last_seen, hv]⟩
    | some v =>
        obtain ⟨m, rfl⟩ := hl v hv
        exact ⟨assocSet d "last_seen" (PyVal.dict (assocSet m channel_id (PyVal.str video_id))),
          by simp [StateManager.set_last_seen, hv]⟩
  · intro hv
    exact ⟨by simp [StateManager.get_resolved, hv], by simp [StateManager.set_resolved, hv]⟩
  · intro hv
    exact ⟨by simp [StateManager.get_last_seen, hv], by simp [StateManager.set_last_seen, hv]⟩

/-- A fixed video dict, as the fetch oracle of the concrete scenarios
returns it for a channel. -/
def wVideo (cid : String) : Video :=
  ⟨cid, "channel title", "vid00000001", "video title", "description",
    "2024-01-01", "thumb", "watch"⟩

/-- Concrete oracle of the witness scenarios: the name search always
returns one fixed channel ID, every fetch finds the fixed video, and the
save succeeds. -/
def wOracle : Oracle :=
  ⟨fun _ => some "UCsearchresultsearchresu",
    fun cid => FetchResult.found (wVideo cid), none⟩

/-- Batch input of three references of which exactly the second cannot be
resolved (no cached value, no channel-ID substring, no handle). -/
def wInput3 : PyDict :=
  [("channels",
    PyVal.str "UCaaaaaaaaaaaaaaaaaaaaaa,nohandle,UCbbbbbbbbbbbbbbbbbbbbbb")]

/-- Concrete oracle whose terminal save raises. -/
def c1Oracle : Oracle :=
  ⟨fun _ => none, fun cid => FetchResult.found (wVideo cid),
    some "disk write failed"⟩

/-- Single-channel input whose reference is a bare channel ID. -/
def c1Input : PyDict := [("channels", PyVal.str "UCaaaaaaaaaaaaaaaaaaaaaa")]

/-- Claim C1 counterexample: in this batch the only channel was processed
to completion (the loop computed one result), yet because the terminal
save raises, the response handed back carries no data at all — the
per-channel video results are absent from the response, contradicting the
claim that they are still returned. -/
theorem c1_counterexample :
    (runLoop c1Oracle ⟨[], []⟩ ⟨[], [], []⟩ (extract_channels c1Input)).2.1.results.length
        = 1 ∧
    (process c1Oracle ⟨[], []⟩ c1Input).resp.data = none ∧
    (process c1Oracle ⟨[], []⟩ c1Input).resp.status = Status.failed ∧
    (process c1Oracle ⟨[], []⟩ c1Input).resp.error = some "disk write failed" := by
  decide

theorem c1_witness :
    extract_channels c1Input ≠ [] ∧
    process c1Oracle ⟨[], []⟩ c1Input =
      ⟨⟨Status.failed, none, some "disk write failed", some "unexpected_error"⟩,
        (runLoop c1Oracle ⟨[], []⟩ ⟨[], [], []⟩ (extract_channels c1Input)).1,
        (runLoop c1Oracle ⟨[], []⟩ ⟨[], [], []⟩ (extract_channels c1Input)).2.2
          ++ [Event.save]⟩ :=
  ⟨by decide, c1_results_discarded_on_save_failure c1Oracle ⟨[], []⟩ c1Input
    "disk write failed" (by decide) rfl⟩

theorem c3_witness :
    ((resolve_channel_id wOracle ⟨[], []⟩ "https://youtube.com/@somebody").2.1
        = some "UCsearchresultsearchresu") ∧
    truthyStr "UCsearchresultsearchresu" = true ∧
    (get_resolved (resolve_channel_id wOracle ⟨[], []⟩ "https://youtube.com/@somebody").1
        "https://youtube.com/@somebody" = some "UCsearchresultsearchresu" ∧
      resolve_channel_id wOracle
          (resolve_channel_id wOracle ⟨[], []⟩ "https://youtube.com/@somebody").1
          "https://youtube.com/@somebody"
        = ((resolve_channel_id wOracle ⟨[], []⟩ "https://youtube.com/@somebody").1,
            some "UCsearchresultsearchresu", []) ∧
      (resolve_channel_id wOracle ⟨[], []⟩ "https://youtube.com/@somebody").2.2.length
          + (resolve_channel_id wOracle
              (resolve_channel_id wOracle ⟨[], []⟩ "https://youtube.com/@somebody").1
              "https://youtube.com/@somebody").2.2.length ≤ 1) :=
  ⟨by decide, by decide,
    c3_idempotent_resolution wOracle ⟨[], []⟩ "https://youtube.com/@somebody"
      "UCsearchresultsearchresu" (by decide) (by decide)⟩

/-- State of the C4 witness scenario: one channel already has a last-seen
video that differs from the fetched one. -/
def c4State : StateDoc := ⟨[], [("UCaaaaaaaaaaaaaaaaaaaaaa", "oldvid")]⟩

def c4Ref : String := "UCaaaaaaaaaaaaaaaaaaaaaa"

def c4Vid : Video := wVideo c4Ref

theorem c4_witness :
    ((stepChannel wOracle c4State ⟨[], [], []⟩ c4Ref).2.1.results
        = (⟨[], [], []⟩ : Accum).results
            ++ [⟨c4Vid, get_last_seen c4State c4Ref != some c4Vid.video_id, c4Ref⟩]) ∧
    ((get_last_seen c4State c4Ref != some c4Vid.video_id) = true ↔
        (get_last_seen c4State c4Ref = none
          ∨ ∃ s, get_last_seen c4State c4Ref = some s ∧ s ≠ c4Vid.video_id)) ∧
    ((get_last_seen c4State c4Ref != some c4Vid.video_id) = true →
        get_last_seen (stepChannel wOracle c4State ⟨[], [], []⟩ c4Ref).1 c4Ref
          = some c4Vid.video_id) ∧
    ((get_last_seen c4State c4Ref != some c4Vid.video_id) = false →
        (stepChannel wOracle c4State ⟨[], [], []⟩ c4Ref).1.last_seen
          = c4State.last_seen) :=
  c4_freshness_classification wOracle c4State ⟨[], [], []⟩ c4Ref c4Ref c4Vid
    (by decide) (by decide) (by decide)

theorem c5_witness :
    extract_channels wInput3 ≠ [] ∧
    (runLoop wOracle ⟨[], []⟩ ⟨[], [], []⟩ (extract_channels wInput3)).2.1.results.length
        = 2 ∧
    (runLoop wOracle ⟨[], []⟩ ⟨[], [], []⟩ (extract_channels wInput3)).2.1.errors.length
        = 1 ∧
    (process wOracle ⟨[], []⟩ wInput3).resp.status = Status.mixed ∧
    statusValue (process wOracle ⟨[], []⟩ wInput3).resp.status = "partial" := by
  refine ⟨by decide, by decide, by decide, ?_, by decide⟩
  exact (c5_batch_outcome wOracle ⟨[], []⟩ wInput3 (by decide) rfl).2.1.mpr
    ⟨by decide, by decide⟩

theorem c6_witness :
    extract_channels wInput3 ≠ [] ∧
    ((process wOracle ⟨[], []⟩ wInput3).trace
        = (runLoop wOracle ⟨[], []⟩ ⟨[], [], []⟩ (extract_channels wInput3)).2.2
            ++ [Event.save] ∧
      Event.save ∉ (runLoop wOracle ⟨[], []⟩ ⟨[], [], []⟩ (extract_channels wInput3)).2.2 ∧
      (runLoop wOracle ⟨[], []⟩ ⟨[], [], []⟩ (extract_channels wInput3)).2.1.results.length
          + (runLoop wOracle ⟨[], []⟩ ⟨[], [], []⟩
              (extract_channels wInput3)).2.1.errors.length
        = (extract_channels wInput3).length) :=
  ⟨by decide, c6_single_save wOracle ⟨[], []⟩ wInput3 (by decide)⟩

theorem c7_witness :
    LocalFileStorage.load (fun _ => none) LocalFileState.missing = defaultState ∧
    LocalFileStorage.load (fun _ => none) LocalFileState.unreadable = defaultState ∧
    LocalFileStorage.load (fun _ => none) (LocalFileState.content "corrupted")
      = defaultState ∧
    BlobStorage.load (fun _ => none) BlobState.notFound = defaultState ∧
    BlobStorage.load (fun _ => none) BlobState.downloadError = defaultState ∧
    BlobStorage.load (fun _ => none) (BlobState.content "corrupted") = defaultState :=
  c7_fail_open_load (fun _ => none) "corrupted" rfl

/-- Input whose channels string holds only blank entries. -/
def c8Input : PyDict := [("channels", PyVal.str " , ,")]

theorem c8_witness :
    extract_channels c8Input = [] ∧
    process wOracle ⟨[], []⟩ c8Input =
      ⟨⟨Status.failed, none, some "No valid channels provided", some "validation_error"⟩,
        ⟨[], []⟩, []⟩ :=
  ⟨by decide, c8_validation_error wOracle ⟨[], []⟩ c8Input (by decide)⟩

theorem c9_witness :
    (∃ r, StateManager.get_resolved [] "ref" = Except.ok r) ∧
    (∃ r, StateManager.get_last_seen [] "UCx" = Except.ok r) ∧
    (∃ d2, StateManager.set_resolved [] "ref" "UCx" = Except.ok d2) ∧
    (∃ d2, StateManager.set_last_seen [] "UCx" "vid" = Except.ok d2) ∧
    (assocFind ([] : PyDict) "resolved" = none →
      StateManager.get_resolved [] "ref" = Except.ok none ∧
      StateManager.set_resolved [] "ref" "UCx"
        = Except.ok (assocSet [] "resolved" (PyVal.dict [("ref", PyVal.str "UCx")]))) ∧
    (assocFind ([] : PyDict) "last_seen" = none →
      StateManager.get_last_seen [] "UCx" = Except.ok none ∧
      StateManager.set_last_seen [] "UCx" "vid"
        = Except.ok (assocSet [] "last_seen" (PyVal.dict [("UCx", PyVal.str "vid")]))) :=
  c9_total_accessors [] "ref" "UCx" "vid"
    (fun _ h => Option.noConfusion h) (fun _ h => Option.noConfusion h)

def c10Ref : String := "UCcccccccccccccccccccccc"

def c10Vid : Video := wVideo c10Ref

theorem c10_witness :
    (runLoop wOracle ⟨[], []⟩ ⟨[], [], []⟩ [c10Ref, c10Ref]).2.1.results
      = [⟨c10Vid, get_last_seen (⟨[], []⟩ : StateDoc) c10Ref != some c10Vid.video_id,
            c10Ref⟩,
         ⟨c10Vid, false, c10Ref⟩] :=
  c10_duplicate_reference wOracle ⟨[], []⟩ c10Ref c10Ref c10Vid
    (by decide) (by decide) (by decide)
